import Mathlib

/-!
Verification of the container-inventory collector
(`source/code/providers/Container_ContainerInventory_Class_Provider.cpp`).

The development shallowly embeds the `ContainerQuery` class:

* `Json` models the cJSON document tree; `getObjectItem` models
  `cJSON_GetObjectItem` (returns an absent marker for a missing key or a
  non-object node), `valuestring` / `valueint` model the corresponding
  struct members of a cJSON node (cJSON stores 1/0 in `valueint` for
  booleans, and a null `valuestring` — modelled as `""` — for non-strings).
* `Record` models a `Container_ContainerInventory_Class` instance; every
  property starts out unset (`none`), and the generated `_value` setters
  are modelled as field updates.
* An unchecked pointer dereference such as
  `cJSON_GetObjectItem(state, "ExitCode")->valueint` on a missing key is a
  null-pointer dereference in the C++ source; the embedding makes every
  extraction function return `Option`, with `none` standing for that fatal
  outcome.  Warning lines written through `syslog` are accumulated in a
  `List String`.
* The Docker transport (`getResponse` together with `restDockerInspect`)
  is an external collaborator and is abstracted as a function
  `String → Option Json` from a container id to the parsed inspection
  document (`none` covers both an empty response vector and a null
  document).  `listContainer` and `gethostname` are likewise abstracted as
  the identifier list and the host-name string handed to `queryAll`.
-/

/-- A cJSON document tree. -/
inductive Json where
  | null : Json
  | bool : Bool → Json
  | num : Int → Json
  | str : String → Json
  | arr : List Json → Json
  | obj : List (String × Json) → Json

/-- Lookup of a key in the child list of an object node. -/
def lookupField : List (String × Json) → String → Option Json
  | [], _ => none
  | (k, v) :: rest, key => if k = key then some v else lookupField rest key

/-- Model of `cJSON_GetObjectItem`: the child with the given name, or an
absent marker (a null pointer in C) when the key is missing or the node is
not an object. -/
def getObjectItem : Json → String → Option Json
  | .obj fields, key => lookupField fields key
  | _, _ => none

/-- Model of a cJSON node's `valuestring` member: the string payload for
string nodes, null (modelled as `""`) otherwise. -/
def valuestring : Json → String
  | .str s => s
  | _ => ""

/-- Model of a cJSON node's `valueint` member: the numeric payload for
number nodes, 1/0 for booleans, 0 otherwise. -/
def valueint : Json → Int
  | .num n => n
  | .bool true => 1
  | .bool false => 0
  | _ => 0

mutual

/-- Model of `cJSON_Print`: a serialization of the node.  No theorem below
depends on the exact layout, only on which record fields receive a printed
value. -/
def printJson : Json → String
  | .null => "null"
  | .bool true => "true"
  | .bool false => "false"
  | .num n => toString n
  | .str s => "\x22" ++ s ++ "\x22"
  | .arr xs => "[" ++ printJsonList xs ++ "]"
  | .obj fs => "\x7b" ++ printJsonFields fs ++ "\x7d"

def printJsonList : List Json → String
  | [] => ""
  | [x] => printJson x
  | x :: xs => printJson x ++ "," ++ printJsonList xs

def printJsonFields : List (String × Json) → String
  | [] => ""
  | [(k, v)] => "\x22" ++ k ++ "\x22:" ++ printJson v
  | (k, v) :: fs => "\x22" ++ k ++ "\x22:" ++ printJson v ++ "," ++ printJsonFields fs

end

/-- `cJSON_Print` applied to the result of a lookup: `cJSON_Print` returns
a null pointer (no value stored) when the item is absent. -/
def printItem : Option Json → Option String
  | some j => some (printJson j)
  | none => none

/-- Model of a `Container_ContainerInventory_Class` instance.  A freshly
constructed instance has every property unset (`none`); the generated
`_value` setters are modelled as field updates. -/
structure Record where
  InstanceID : Option String := none
  ImageId : Option String := none
  CreatedTime : Option String := none
  ContainerHostname : Option String := none
  EnvironmentVar : Option String := none
  Command : Option String := none
  ComposeGroup : Option String := none
  ExitCode : Option Int := none
  State : Option String := none
  Links : Option String := none
  Ports : Option String := none
  deriving Repr, DecidableEq

/-- The syslog warning emitted by `ObtainContainerConfig` when the
"Config" sub-object is absent, with the container id substituted for
`%s`. -/
def warnConfig (id : String) : String :=
  "Attempt in ObtainContainerConfig to get container " ++ id ++
    " config information returned null"

/-- The syslog warning emitted by `ObtainContainerState` when the
"State" sub-object is absent. -/
def warnState (id : String) : String :=
  "Attempt in ObtainContainerState to get container " ++ id ++
    " state information returned null"

/-- The syslog warning emitted by `ObtainContainerHostConfig` when the
"HostConfig" sub-object is absent. -/
def warnHostConfig (id : String) : String :=
  "Attempt in ObtainContainerHostConfig to get container " ++ id ++
    " host config information returned null"

/-- The syslog warning emitted by `InspectContainer` when the inspection
response is empty or null. -/
def warnInspect (id : String) : String :=
  "Attempt in InspectContainer to inspect " ++ id ++ " returned null"

/-- Embedding of `ObtainContainerConfig`.  Returns the updated record and
the warnings logged; `none` models a fatal null-pointer dereference
(`Hostname` missing inside a present `Config`, or `Id` missing on the
warning path). -/
def obtainContainerConfig (inst : Record) (entry : Json) :
    Option (Record × List String) :=
  match getObjectItem entry "Config" with
  | some config =>
    match getObjectItem config "Hostname" with
    | none => none
    | some hostnameItem =>
      let inst := { inst with ContainerHostname := some (valuestring hostnameItem) }
      let inst := { inst with EnvironmentVar := printItem (getObjectItem config "Env") }
      let inst := { inst with Command := printItem (getObjectItem config "Cmd") }
      let inst :=
        match getObjectItem config "Labels" with
        | some labels =>
          match getObjectItem labels "com.docker.compose.project" with
          | some groupName => { inst with ComposeGroup := some (valuestring groupName) }
          | none => inst
        | none => inst
      some (inst, [])
  | none =>
    match getObjectItem entry "Id" with
    | some idItem => some (inst, [warnConfig (valuestring idItem)])
    | none => none

/-- Embedding of `ObtainContainerState`.  The exit code is stored
unconditionally; a non-zero exit code selects "Failed" before the Running
and Paused flags are even read; `StartedAt` and `FinishedAt` are
dereferenced (fatally if absent) but their values are discarded, exactly
as in the source. -/
def obtainContainerState (inst : Record) (entry : Json) :
    Option (Record × List String) :=
  match getObjectItem entry "State" with
  | some state =>
    match getObjectItem state "ExitCode" with
    | none => none
    | some exitCodeItem =>
      let exitCode := valueint exitCodeItem
      let inst := { inst with ExitCode := some exitCode }
      let step : Option Record :=
        if exitCode ≠ 0 then
          some { inst with State := some "Failed" }
        else
          match getObjectItem state "Running" with
          | none => none
          | some runningItem =>
            if valueint runningItem ≠ 0 then
              some { inst with State := some "Running" }
            else
              match getObjectItem state "Paused" with
              | none => none
              | some pausedItem =>
                if valueint pausedItem ≠ 0 then
                  some { inst with State := some "Paused" }
                else
                  some { inst with State := some "Stopped" }
      match step with
      | none => none
      | some inst =>
        match getObjectItem state "StartedAt", getObjectItem state "FinishedAt" with
        | some _, some _ => some (inst, [])
        | _, _ => none
  | none =>
    match getObjectItem entry "Id" with
    | some idItem => some (inst, [warnState (valuestring idItem)])
    | none => none

/-- Embedding of `ObtainContainerHostConfig`. -/
def obtainContainerHostConfig (inst : Record) (entry : Json) :
    Option (Record × List String) :=
  match getObjectItem entry "HostConfig" with
  | some hostConfig =>
    some ({ inst with
              Links := printItem (getObjectItem hostConfig "Links"),
              Ports := printItem (getObjectItem hostConfig "PortBindings") }, [])
  | none =>
    match getObjectItem entry "Id" with
    | some idItem => some (inst, [warnHostConfig (valuestring idItem)])
    | none => none

/-- Embedding of `InspectContainer`.  `inspect` abstracts the request
construction plus `getResponse`; `inspect id = none` covers an empty
response vector or a null first document.  On a present document the three
top-level lookups (`Id`, `Image`, `Created`) are dereferenced without a
check. -/
def inspectContainer (inspect : String → Option Json) (id : String) :
    Option (Record × List String) :=
  let inst : Record := {}
  match inspect id with
  | some doc =>
    match getObjectItem doc "Id", getObjectItem doc "Image",
          getObjectItem doc "Created" with
    | some idItem, some imageItem, some createdItem =>
      let inst := { inst with
                      InstanceID := some (valuestring idItem),
                      ImageId := some (valuestring imageItem),
                      CreatedTime := some (valuestring createdItem) }
      match obtainContainerConfig inst doc with
      | none => none
      | some (inst, logs1) =>
        match obtainContainerState inst doc with
        | none => none
        | some (inst, logs2) =>
          match obtainContainerHostConfig inst doc with
          | none => none
          | some (inst, logs3) => some (inst, logs1 ++ logs2 ++ logs3)
    | _, _, _ => none
  | none => some (inst, [warnInspect id])

/-- Embedding of `result[idx].ImageId_value(hostname)`: `std::vector`
indexing performs no bounds check, so an index outside the vector is
undefined behaviour — modelled as `none`. -/
def setImageIdAt (recs : List Record) (idx : Nat) (hostname : String) :
    Option (List Record) :=
  if h : idx < recs.length then
    some (recs.set idx { recs.get ⟨idx, h⟩ with ImageId := some hostname })
  else none

/-- The loop body of `QueryAll`, processing the remaining identifiers:
each iteration inspects one container, appends its record, then writes the
host name into the record at index `total - 1`, where `total` is
`containerIds.size()` (NOT the current size of the result vector). -/
def queryAllGo (inspect : String → Option Json) (hostname : String) (total : Nat) :
    List String → List Record → List String → Option (List Record × List String)
  | [], acc, logs => some (acc, logs)
  | id :: rest, acc, logs =>
    match inspectContainer inspect id with
    | none => none
    | some (rec, lg) =>
      match setImageIdAt (acc ++ [rec]) (total - 1) hostname with
      | none => none
      | some acc2 => queryAllGo inspect hostname total rest acc2 (logs ++ lg)

/-- Embedding of `QueryAll`: `hostname` abstracts `gethostname` (the empty
string on failure) and `containerIds` abstracts `listContainer(true)`. -/
def queryAll (inspect : String → Option Json) (hostname : String)
    (containerIds : List String) : Option (List Record × List String) :=
  queryAllGo inspect hostname containerIds.length containerIds [] []

/-- A State sub-object with ExitCode 137 alongside Running = true. -/
def stateFailedDoc : Json :=
  .obj [("State", .obj [("ExitCode", .num 137), ("Running", .bool true),
    ("Paused", .bool false), ("StartedAt", .str "s"), ("FinishedAt", .str "f")])]

/-- A State sub-object with ExitCode 0 and Running = true. -/
def stateRunningDoc : Json :=
  .obj [("State", .obj [("ExitCode", .num 0), ("Running", .bool true),
    ("Paused", .bool false), ("StartedAt", .str "s"), ("FinishedAt", .str "f")])]

/-- The round-trip inspection document of spec §8, keyed by container
id. -/
def fullDoc (id : String) : Json :=
  .obj [("Id", .str id), ("Image", .str "img1"),
    ("Created", .str "2024-01-01T00:00:00Z"),
    ("Config", .obj [("Hostname", .str "h1"), ("Env", .arr [.str "A=1"]),
      ("Cmd", .arr [.str "sh"]),
      ("Labels", .obj [("com.docker.compose.project", .str "grp")])]),
    ("State", .obj [("ExitCode", .num 0), ("Running", .bool true),
      ("Paused", .bool false), ("StartedAt", .str "s"), ("FinishedAt", .str "f")]),
    ("HostConfig", .obj [("Links", .null), ("PortBindings", .obj [])])]

/-- The record produced by inspecting `fullDoc "a"` and then stamping the
host name "hostA" into the ImageId field. -/
def fullRecordStamped : Record :=
  { InstanceID := some "a", ImageId := some "hostA",
    CreatedTime := some "2024-01-01T00:00:00Z",
    ContainerHostname := some "h1",
    EnvironmentVar := some "[\x22A=1\x22]",
    Command := some "[\x22sh\x22]",
    ComposeGroup := some "grp", ExitCode := some 0,
    State := some "Running", Links := some "null",
    Ports := some "\x7b\x7d" }

/-- A document whose State sub-object is present but lacks the Running and
Paused children, with a non-zero exit code. -/
def doc6 : Json :=
  .obj [("Id", .str "c6"), ("Image", .str "img"), ("Created", .str "t"),
    ("Config", .obj [("Hostname", .str "h")]),
    ("State", .obj [("ExitCode", .num 1), ("StartedAt", .str "s"),
      ("FinishedAt", .str "f")]),
    ("HostConfig", .obj [])]

/-- A document whose Config sub-object is present but empty. -/
def doc6b : Json := .obj [("Config", .obj [])]

example : valueint (.bool true) = 1 := rfl
example : getObjectItem (.obj [("a", .num 3)]) "a" = some (.num 3) := rfl
example : getObjectItem (.obj [("a", .num 3)]) "b" = none := rfl

/-- Helper: with the "State" sub-object and all five of its dereferenced
children present, `ObtainContainerState` completes, stores the exit code,
and derives the state by the fixed branch order of the source. -/
lemma obtainContainerState_all_present (inst : Record) (entry state ec run pas sa fa : Json)
    (hState : getObjectItem entry "State" = some state)
    (hEc : getObjectItem state "ExitCode" = some ec)
    (hRun : getObjectItem state "Running" = some run)
    (hPas : getObjectItem state "Paused" = some pas)
    (hSa : getObjectItem state "StartedAt" = some sa)
    (hFa : getObjectItem state "FinishedAt" = some fa) :
    obtainContainerState inst entry =
      some ({ inst with
                ExitCode := some (valueint ec),
                State := some (if valueint ec ≠ 0 then "Failed"
                               else if valueint run ≠ 0 then "Running"
                               else if valueint pas ≠ 0 then "Paused"
                               else "Stopped") }, []) := by
  by_cases h0 : valueint ec = 0 <;> by_cases hr : valueint run = 0 <;>
    by_cases hp : valueint pas = 0 <;>
      simp [obtainContainerState, hState, hEc, hRun, hPas, hSa, hFa, h0, hr, hp]

/-- C1: when the State sub-object is present and its ExitCode reads as a
non-zero integer, the record's State is set to "Failed" — the Running and
Paused children are never consulted (no hypothesis about them at all) —
and the exit-code value is stored in the record unconditionally. -/
theorem C1_exit_code_precedence (inst : Record) (entry state ec sa fa : Json)
    (hState : getObjectItem entry "State" = some state)
    (hEc : getObjectItem state "ExitCode" = some ec)
    (hSa : getObjectItem state "StartedAt" = some sa)
    (hFa : getObjectItem state "FinishedAt" = some fa)
    (hNz : valueint ec ≠ 0) :
    obtainContainerState inst entry =
      some ({ inst with ExitCode := some (valueint ec), State := some "Failed" }, []) := by
  simp [obtainContainerState, hState, hEc, hSa, hFa, hNz]

/-- C1 witness: ExitCode 137 with a stale Running = true is classified
Failed. -/
theorem C1_exit_code_precedence_witness :
    obtainContainerState {} stateFailedDoc =
      some ({ ExitCode := some 137, State := some "Failed" }, []) :=
  C1_exit_code_precedence {} stateFailedDoc
    (.obj [("ExitCode", .num 137), ("Running", .bool true), ("Paused", .bool false),
      ("StartedAt", .str "s"), ("FinishedAt", .str "f")])
    (.num 137) (.str "s") (.str "f") rfl rfl rfl rfl (by decide)

/-- C2: with the State sub-object and its children present, a zero
ExitCode yields Running when the Running flag is truthy, else Paused when
the Paused flag is truthy, else Stopped; and (together with the Failed
branch) the derivation is total — the extractor always completes with the
State field set to exactly one of the four enumerated values. -/
theorem C2_zero_exit_derivation (inst : Record) (entry state ec run pas sa fa : Json)
    (hState : getObjectItem entry "State" = some state)
    (hEc : getObjectItem state "ExitCode" = some ec)
    (hRun : getObjectItem state "Running" = some run)
    (hPas : getObjectItem state "Paused" = some pas)
    (hSa : getObjectItem state "StartedAt" = some sa)
    (hFa : getObjectItem state "FinishedAt" = some fa) :
    (valueint ec = 0 →
      obtainContainerState inst entry =
        some ({ inst with
                  ExitCode := some 0,
                  State := some (if valueint run ≠ 0 then "Running"
                                 else if valueint pas ≠ 0 then "Paused"
                                 else "Stopped") }, [])) ∧
    (∃ r, obtainContainerState inst entry = some (r, []) ∧
       (r.State = some "Running" ∨ r.State = some "Paused" ∨
        r.State = some "Stopped" ∨ r.State = some "Failed")) := by
  have hall := obtainContainerState_all_present inst entry state ec run pas sa fa
    hState hEc hRun hPas hSa hFa
  constructor
  · intro h0
    rw [hall, h0]
    simp
  · refine ⟨_, hall, ?_⟩
    by_cases h0 : valueint ec = 0 <;> by_cases hr : valueint run = 0 <;>
      by_cases hp : valueint pas = 0 <;> simp [h0, hr, hp]

/-- C2 witness: ExitCode 0 with Running = true is classified Running. -/
theorem C2_zero_exit_derivation_witness :
    obtainContainerState {} stateRunningDoc =
      some ({ ExitCode := some 0, State := some "Running" }, []) := by
  have h := C2_zero_exit_derivation {} stateRunningDoc
    (.obj [("ExitCode", .num 0), ("Running", .bool true), ("Paused", .bool false),
      ("StartedAt", .str "s"), ("FinishedAt", .str "f")])
    (.num 0) (.bool true) (.bool false) (.str "s") (.str "f")
    rfl rfl rfl rfl rfl rfl
  have h1 := h.1 rfl
  simpa [valueint] using h1

/-- Helper: with at least two identifiers, the host-name stamp at index
`containerIds.size() - 1` is already out of bounds on the first iteration
(the result vector then holds one element), so the collection aborts. -/
lemma queryAll_none_of_two_le (inspect : String → Option Json) (hostname : String)
    (ids : List String) (h2 : 2 ≤ ids.length) :
    queryAll inspect hostname ids = none := by
  cases ids with
  | nil => simp at h2
  | cons a rest =>
    have h2' : 1 ≤ rest.length := by
      simp only [List.length_cons] at h2
      omega
    have hnot : ¬ (rest.length < 1) := by omega
    have hset : ∀ rec : Record,
        setImageIdAt [rec] rest.length hostname = none := by
      intro rec
      simp [setImageIdAt, hnot]
    cases hI : inspectContainer inspect a with
    | none => simp [queryAll, queryAllGo, hI]
    | some p =>
      obtain ⟨rec, lg⟩ := p
      simp [queryAll, queryAllGo, hI, hset rec]

/-- C4: for an identifier list of length at least 2, the host-name stamp
`result[containerIds.size() - 1]` indexes the result vector at position
`length - 1` while the vector holds only `i + 1` elements during iteration
`i`; this is out of bounds on every iteration except the last, and in the
embedding the very first iteration already leaves the in-bounds branch, so
`queryAll` aborts with `none`. -/
theorem C4_host_stamp_out_of_bounds (inspect : String → Option Json) (hostname : String)
    (ids : List String) (h2 : 2 ≤ ids.length) :
    (∀ (i : Nat) (recs : List Record), i < ids.length - 1 → recs.length = i + 1 →
      setImageIdAt recs (ids.length - 1) hostname = none) ∧
    queryAll inspect hostname ids = none := by
  constructor
  · intro i recs hi hlen
    have hnot : ¬ (ids.length - 1 < recs.length) := by omega
    simp [setImageIdAt, hnot]
  · exact queryAll_none_of_two_le inspect hostname ids h2

/-- C4 witness: with two identifiers the collection aborts. -/
theorem C4_host_stamp_out_of_bounds_witness :
    2 ≤ (["a", "b"] : List String).length ∧
    queryAll (fun _ => none) "h" ["a", "b"] = none :=
  ⟨by decide, (C4_host_stamp_out_of_bounds (fun _ => none) "h" ["a", "b"] (by decide)).2⟩

/-- C3: for every identifier list, after `QueryAll` completes, the
returned sequence holds one record per identifier and every record in it —
not just the last one — has its ImageId field equal to the host's name,
the inspected value having been overwritten.  (By C4, completion only
happens for lists of length at most one; a longer list never reaches a
returned sequence at all.) -/
theorem C3_imageid_stamped_on_completion (inspect : String → Option Json)
    (hostname : String) (ids : List String) (recs : List Record) (logs : List String)
    (h : queryAll inspect hostname ids = some (recs, logs)) :
    recs.length = ids.length ∧ ∀ r ∈ recs, r.ImageId = some hostname := by
  cases ids with
  | nil =>
    simp [queryAll, queryAllGo] at h
    obtain ⟨h1, h2⟩ := h
    subst h1
    simp
  | cons a rest =>
    cases rest with
    | nil =>
      cases hI : inspectContainer inspect a with
      | none => simp [queryAll, queryAllGo, hI] at h
      | some p =>
        obtain ⟨rec, lg⟩ := p
        have hset : setImageIdAt [rec] 0 hostname =
            some [{ rec with ImageId := some hostname }] := by
          simp [setImageIdAt]
        simp [queryAll, queryAllGo, hI, hset] at h
        obtain ⟨h1, h2⟩ := h
        subst h1
        refine ⟨by simp, ?_⟩
        intro r hr
        simp only [List.mem_singleton] at hr
        subst hr
        rfl
    | cons b rest2 =>
      rw [queryAll_none_of_two_le inspect hostname (a :: b :: rest2)
        (by simp only [List.length_cons]; omega)] at h
      simp at h

/-- C3 witness: a single identifier with a successful inspection of the
full round-trip document completes, and the returned record carries the
host name in ImageId. -/
theorem C3_imageid_stamped_on_completion_witness :
    ([fullRecordStamped] : List Record).length = (["a"] : List String).length ∧
    ∀ r ∈ ([fullRecordStamped] : List Record), r.ImageId = some "hostA" :=
  C3_imageid_stamped_on_completion (fun id => some (fullDoc id)) "hostA" ["a"]
    [fullRecordStamped] [] (by decide)

/-- C5: evaluating the code at the failing input — three identifiers, all
inspections succeeding — `QueryAll` does not return three records in input
order: the out-of-bounds host-name stamp aborts the collection on the
first iteration (`none` in the embedding, undefined behaviour in the
C++). -/
theorem C5_order_preservation_aborts :
    queryAll (fun id => some (fullDoc id)) "hostB" ["x", "y", "z"] = none := by
  rfl

/-- C7: when the inspection response for an identifier is absent or null,
`InspectContainer` returns normally (no fatal outcome) with a record in
which every field keeps its default unset value and exactly one warning,
which contains the requested identifier; and the `QueryAll` loop step then
proceeds to the remaining identifiers (whenever the — independently buggy,
see C4 — host-name stamp stays in bounds). -/
theorem C7_absent_document_warns_and_continues (inspect : String → Option Json)
    (id : String) (h : inspect id = none) :
    inspectContainer inspect id = some ({}, [warnInspect id]) ∧
    (∃ u v, warnInspect id = u ++ (id ++ v)) ∧
    (∀ hostname total rest acc logs acc2,
      setImageIdAt (acc ++ [({} : Record)]) (total - 1) hostname = some acc2 →
      queryAllGo inspect hostname total (id :: rest) acc logs =
        queryAllGo inspect hostname total rest acc2 (logs ++ [warnInspect id])) := by
  have hIC : inspectContainer inspect id = some ({}, [warnInspect id]) := by
    simp [inspectContainer, h]
  refine ⟨hIC,
    ⟨"Attempt in InspectContainer to inspect ", " returned null",
      by simp [warnInspect, String.append_assoc]⟩, ?_⟩
  intro hostname total rest acc logs acc2 hstamp
  simp [queryAllGo, hIC, hstamp]

/-- C7 witness: a transport returning no document for "abc". -/
theorem C7_absent_document_warns_and_continues_witness :
    inspectContainer (fun _ => none) "abc" = some ({}, [warnInspect "abc"]) :=
  (C7_absent_document_warns_and_continues (fun _ => none) "abc" rfl).1

/-- C8: when the "Config" sub-object is absent (and the top-level Id is
present, as the warning path requires — see C10), `ObtainContainerConfig`
leaves the record completely unchanged — in particular
ContainerHostname, EnvironmentVar, Command and ComposeGroup keep their
defaults — and logs exactly one warning naming the container id; and the
`QueryAll` loop step still proceeds to the remaining identifiers whenever
the inspection returned a record and the (independently buggy, see C4)
host-name stamp stays in bounds. -/
theorem C8_config_absent_fault_isolation (inst : Record) (entry idItem : Json)
    (hC : getObjectItem entry "Config" = none)
    (hId : getObjectItem entry "Id" = some idItem) :
    obtainContainerConfig inst entry = some (inst, [warnConfig (valuestring idItem)]) ∧
    (∃ u v, warnConfig (valuestring idItem) = u ++ (valuestring idItem ++ v)) ∧
    (∀ inspect id rec lg hostname total rest acc logs acc2,
      inspectContainer inspect id = some (rec, lg) →
      setImageIdAt (acc ++ [rec]) (total - 1) hostname = some acc2 →
      queryAllGo inspect hostname total (id :: rest) acc logs =
        queryAllGo inspect hostname total rest acc2 (logs ++ lg)) := by
  refine ⟨by simp [obtainContainerConfig, hC, hId],
    ⟨"Attempt in ObtainContainerConfig to get container ",
      " config information returned null",
      by simp [warnConfig, String.append_assoc]⟩, ?_⟩
  intro inspect id rec lg hostname total rest acc logs acc2 hIC hstamp
  simp [queryAllGo, hIC, hstamp]

/-- C8 witness: a document carrying only an Id and no Config. -/
theorem C8_config_absent_fault_isolation_witness :
    obtainContainerConfig {} (.obj [("Id", .str "c8")]) =
      some ({}, [warnConfig "c8"]) :=
  (C8_config_absent_fault_isolation {} (.obj [("Id", .str "c8")]) (.str "c8")
    rfl rfl).1

/-- Helper: with the "Config" sub-object and its Hostname child present,
`ObtainContainerConfig` completes without logging, filling the hostname,
the printed Env and Cmd, and the compose-group label exactly when the
two-level Labels lookup finds it. -/
lemma obtainContainerConfig_all_present (inst : Record) (entry config hn : Json)
    (hC : getObjectItem entry "Config" = some config)
    (hHn : getObjectItem config "Hostname" = some hn) :
    obtainContainerConfig inst entry =
      some ({ inst with
                ContainerHostname := some (valuestring hn),
                EnvironmentVar := printItem (getObjectItem config "Env"),
                Command := printItem (getObjectItem config "Cmd"),
                ComposeGroup := ((getObjectItem config "Labels").bind
                  (fun labels =>
                    getObjectItem labels "com.docker.compose.project")).elim
                  inst.ComposeGroup (fun g => some (valuestring g)) }, []) := by
  cases hL : getObjectItem config "Labels" with
  | none => simp [obtainContainerConfig, hC, hHn, hL]
  | some labels =>
    cases hG : getObjectItem labels "com.docker.compose.project" with
    | none => simp [obtainContainerConfig, hC, hHn, hL, hG]
    | some g => simp [obtainContainerConfig, hC, hHn, hL, hG]

/-- C9: on a fresh record and a present Config sub-object (with the
Hostname child the source dereferences first), ComposeGroup ends up set
exactly when Config contains a Labels object carrying the key
"com.docker.compose.project" — otherwise it stays `none`, not the empty
string — and the present-Config branch logs nothing. -/
theorem C9_compose_group_two_level_lookup (inst : Record) (entry config hn : Json)
    (hC : getObjectItem entry "Config" = some config)
    (hHn : getObjectItem config "Hostname" = some hn)
    (hFresh : inst.ComposeGroup = none) :
    obtainContainerConfig inst entry =
      some ({ inst with
                ContainerHostname := some (valuestring hn),
                EnvironmentVar := printItem (getObjectItem config "Env"),
                Command := printItem (getObjectItem config "Cmd"),
                ComposeGroup := ((getObjectItem config "Labels").bind
                  (fun labels =>
                    getObjectItem labels "com.docker.compose.project")).map
                  valuestring }, []) := by
  rw [obtainContainerConfig_all_present inst entry config hn hC hHn]
  cases hL : (getObjectItem config "Labels").bind
      (fun labels => getObjectItem labels "com.docker.compose.project") with
  | none => simp [hFresh]
  | some g => simp

/-- C9 witness: a Config with a compose-project label yields
ComposeGroup = "grp"; Env and Cmd are absent, so the printed fields stay
unset. -/
theorem C9_compose_group_two_level_lookup_witness :
    obtainContainerConfig {}
      (.obj [("Config", .obj [("Hostname", .str "h1"),
        ("Labels", .obj [("com.docker.compose.project", .str "grp")])])]) =
      some ({ ContainerHostname := some "h1", ComposeGroup := some "grp" }, []) :=
  C9_compose_group_two_level_lookup {}
    (.obj [("Config", .obj [("Hostname", .str "h1"),
      ("Labels", .obj [("com.docker.compose.project", .str "grp")])])])
    (.obj [("Hostname", .str "h1"),
      ("Labels", .obj [("com.docker.compose.project", .str "grp")])])
    (.str "h1") rfl rfl rfl

/-- C10: the warning path of each of the three sub-extractors dereferences
the top-level "Id" lookup without a check: with the sub-object absent, a
missing Id makes even the advertised recoverable path fatal, and the path
is safe (one warning, record untouched) exactly when Id is present. -/
theorem C10_warning_path_derefs_id (inst : Record) (entry : Json) :
    (getObjectItem entry "Id" = none →
      (getObjectItem entry "Config" = none →
        obtainContainerConfig inst entry = none) ∧
      (getObjectItem entry "State" = none →
        obtainContainerState inst entry = none) ∧
      (getObjectItem entry "HostConfig" = none →
        obtainContainerHostConfig inst entry = none)) ∧
    (∀ idItem, getObjectItem entry "Id" = some idItem →
      (getObjectItem entry "Config" = none →
        obtainContainerConfig inst entry =
          some (inst, [warnConfig (valuestring idItem)])) ∧
      (getObjectItem entry "State" = none →
        obtainContainerState inst entry =
          some (inst, [warnState (valuestring idItem)])) ∧
      (getObjectItem entry "HostConfig" = none →
        obtainContainerHostConfig inst entry =
          some (inst, [warnHostConfig (valuestring idItem)]))) := by
  constructor
  · intro hId
    exact ⟨fun hC => by simp [obtainContainerConfig, hC, hId],
      fun hS => by simp [obtainContainerState, hS, hId],
      fun hH => by simp [obtainContainerHostConfig, hH, hId]⟩
  · intro idItem hId
    exact ⟨fun hC => by simp [obtainContainerConfig, hC, hId],
      fun hS => by simp [obtainContainerState, hS, hId],
      fun hH => by simp [obtainContainerHostConfig, hH, hId]⟩

/-- C10 witness: a document with State present but Config and Id missing —
the Config extractor's fault-tolerant warning path is itself fatal. -/
theorem C10_warning_path_derefs_id_witness :
    obtainContainerConfig {} (.obj [("State", .obj [])]) = none :=
  ((C10_warning_path_derefs_id {} (.obj [("State", .obj [])])).1 rfl).1 rfl

/-- Helper: with the "State" sub-object present, a missing `StartedAt` or
`FinishedAt` child is always fatal — those two dereferences sit after the
branch on the exit code and are reached from every branch that has not
already crashed. -/
lemma obtainContainerState_fatal_missing_timestamps (inst : Record) (entry state : Json)
    (hS : getObjectItem entry "State" = some state)
    (hT : getObjectItem state "StartedAt" = none ∨
      getObjectItem state "FinishedAt" = none) :
    obtainContainerState inst entry = none := by
  cases hec : getObjectItem state "ExitCode" with
  | none => simp [obtainContainerState, hS, hec]
  | some ec =>
    by_cases h0 : valueint ec = 0
    · cases hr : getObjectItem state "Running" with
      | none => simp [obtainContainerState, hS, hec, h0, hr]
      | some run =>
        by_cases hrv : valueint run = 0
        · cases hp : getObjectItem state "Paused" with
          | none => simp [obtainContainerState, hS, hec, h0, hr, hrv, hp]
          | some pas =>
            by_cases hpv : valueint pas = 0 <;>
              rcases hT with hSA | hFA
            · simp [obtainContainerState, hS, hec, h0, hr, hrv, hp, hpv, hSA]
            · cases hsa : getObjectItem state "StartedAt" <;>
                simp [obtainContainerState, hS, hec, h0, hr, hrv, hp, hpv, hsa, hFA]
            · simp [obtainContainerState, hS, hec, h0, hr, hrv, hp, hpv, hSA]
            · cases hsa : getObjectItem state "StartedAt" <;>
                simp [obtainContainerState, hS, hec, h0, hr, hrv, hp, hpv, hsa, hFA]
        · rcases hT with hSA | hFA
          · simp [obtainContainerState, hS, hec, h0, hr, hrv, hSA]
          · cases hsa : getObjectItem state "StartedAt" <;>
              simp [obtainContainerState, hS, hec, h0, hr, hrv, hsa, hFA]
    · rcases hT with hSA | hFA
      · simp [obtainContainerState, hS, hec, h0, hSA]
      · cases hsa : getObjectItem state "StartedAt" <;>
          simp [obtainContainerState, hS, hec, h0, hsa, hFA]

/-- C6 counterexample: a document whose present State sub-object lacks the
expected children Running and Paused, yet the extraction is NOT fatal —
the non-zero exit code takes the Failed branch before either flag is
dereferenced, so the claim's universal "is fatal" fails at this input. -/
theorem C6_counterexample :
    (getObjectItem doc6 "State").isSome = true ∧
    ((getObjectItem doc6 "State").bind (fun st => getObjectItem st "Running")) = none ∧
    ((getObjectItem doc6 "State").bind (fun st => getObjectItem st "Paused")) = none ∧
    (inspectContainer (fun _ => some doc6) "c6").isSome = true :=
  ⟨rfl, rfl, rfl, rfl⟩

/-- C6 (amended): a missing child is fatal exactly when its unchecked
lookup is reached: Hostname inside a present Config; ExitCode, StartedAt
and FinishedAt inside a present State; Running when the exit code is zero;
Paused when additionally the Running flag is falsy; and the top-level Id,
Image and Created on a present document.  When all those children are
present, every dereference in the extractors is safe and the inspection
completes. -/
theorem C6_reached_unchecked_lookups (inst : Record) (inspect : String → Option Json)
    (id : String) (entry : Json) :
    (∀ config, getObjectItem entry "Config" = some config →
      getObjectItem config "Hostname" = none →
      obtainContainerConfig inst entry = none) ∧
    (∀ state, getObjectItem entry "State" = some state →
      (getObjectItem state "ExitCode" = none → obtainContainerState inst entry = none) ∧
      (getObjectItem state "StartedAt" = none → obtainContainerState inst entry = none) ∧
      (getObjectItem state "FinishedAt" = none → obtainContainerState inst entry = none) ∧
      (∀ ec, getObjectItem state "ExitCode" = some ec → valueint ec = 0 →
        getObjectItem state "Running" = none → obtainContainerState inst entry = none) ∧
      (∀ ec run, getObjectItem state "ExitCode" = some ec → valueint ec = 0 →
        getObjectItem state "Running" = some run → valueint run = 0 →
        getObjectItem state "Paused" = none → obtainContainerState inst entry = none)) ∧
    (inspect id = some entry →
      (getObjectItem entry "Id" = none ∨ getObjectItem entry "Image" = none ∨
        getObjectItem entry "Created" = none) →
      inspectContainer inspect id = none) ∧
    (∀ idI imgI crI config hn state ec run pas sa fa hc,
      inspect id = some entry →
      getObjectItem entry "Id" = some idI →
      getObjectItem entry "Image" = some imgI →
      getObjectItem entry "Created" = some crI →
      getObjectItem entry "Config" = some config →
      getObjectItem config "Hostname" = some hn →
      getObjectItem entry "State" = some state →
      getObjectItem state "ExitCode" = some ec →
      getObjectItem state "Running" = some run →
      getObjectItem state "Paused" = some pas →
      getObjectItem state "StartedAt" = some sa →
      getObjectItem state "FinishedAt" = some fa →
      getObjectItem entry "HostConfig" = some hc →
      (inspectContainer inspect id).isSome = true) := by
  refine ⟨?_, ?_, ?_, ?_⟩
  · intro config h1 h2
    simp [obtainContainerConfig, h1, h2]
  · intro state hS
    refine ⟨?_, ?_, ?_, ?_, ?_⟩
    · intro h
      simp [obtainContainerState, hS, h]
    · intro h
      exact obtainContainerState_fatal_missing_timestamps inst entry state hS (Or.inl h)
    · intro h
      exact obtainContainerState_fatal_missing_timestamps inst entry state hS (Or.inr h)
    · intro ec hec h0 hr
      simp [obtainContainerState, hS, hec, h0, hr]
    · intro ec run hec h0 hr hrv hp
      simp [obtainContainerState, hS, hec, h0, hr, hrv, hp]
  · intro hDoc hOr
    rcases hOr with h | h | h
    · simp [inspectContainer, hDoc, h]
    · cases hid : getObjectItem entry "Id" <;>
        simp [inspectContainer, hDoc, hid, h]
    · cases hid : getObjectItem entry "Id" <;>
        cases himg : getObjectItem entry "Image" <;>
          simp [inspectContainer, hDoc, hid, himg, h]
  · intro idI imgI crI config hn state ec run pas sa fa hc hDoc hId hImg hCr hC hHn
      hS hEc hRun hPas hSa hFa hHC
    have hcfg := fun r : Record =>
      obtainContainerConfig_all_present r entry config hn hC hHn
    have hst := fun r : Record =>
      obtainContainerState_all_present r entry state ec run pas sa fa
        hS hEc hRun hPas hSa hFa
    have hhc : ∀ r : Record, obtainContainerHostConfig r entry =
        some ({ r with
                  Links := printItem (getObjectItem hc "Links"),
                  Ports := printItem (getObjectItem hc "PortBindings") }, []) :=
      fun r => by simp [obtainContainerHostConfig, hHC]
    simp [inspectContainer, hDoc, hId, hImg, hCr, hcfg, hst, hhc]

/-- C6 witness: Config present without a Hostname child is fatal. -/
theorem C6_reached_unchecked_lookups_witness :
    obtainContainerConfig {} doc6b = none :=
  (C6_reached_unchecked_lookups {} (fun _ => none) "x" doc6b).1 (.obj []) rfl rfl
